import Mathlib

/-!
# VaultSafe desktop runners

A shallow embedding of the native shells of the repository:

* `windows/runner/win32_window.h`, `windows/runner/win32_window.cpp`
* `windows/runner/flutter_window.cpp`
* `linux/my_application.cc`

Calls into the operating system and into the embedded engine are recorded, in
program order, in a list of `Call`s (respectively `GtkCall`s); what those calls
answer is supplied by an environment record.  Pointers and handles are natural
numbers and the null pointer is `0`.
-/

namespace VaultSafe

/-! ## Machine values -/

abbrev HWND := Nat
abbrev HMODULE := Nat
abbrev Ptr := Nat
abbrev UINT := Nat
abbrev WPARAM := Nat
abbrev LPARAM := Nat
abbrev LRESULT := Int
abbrev ATOM := Nat

/-- The null pointer / null handle. -/
def nullptr : Nat := 0

/-- Reduction of a natural number to an `unsigned int` (32 bits). -/
def u32 (n : Nat) : Nat := n % 2 ^ 32

/-- Conversion of a 32-bit pattern to a `LONG` (complement of two). -/
def toLONG (n : Nat) : Int :=
  if n % 2 ^ 32 < 2 ^ 31 then ((n % 2 ^ 32 : Nat) : Int) else ((n % 2 ^ 32 : Nat) : Int) - 2 ^ 32

/-- Result of a `LONG` operation, wrapped to 32 bits as the hardware does
(signed overflow itself is undefined in C++). -/
def wrapLONG (i : Int) : Int := toLONG (i % 2 ^ 32).toNat

/-! ## The Windows side -/

/-- Constants of the Windows SDK headers and the pure services of the OS that
the runner uses.  The headers are not part of the repository, so the values
are parameters of the embedding. -/
structure WinApi where
  WM_NCCREATE : UINT
  GWLP_USERDATA : Int
  GCL_STYLE : Int
  CS_NOCLOSE : Nat
  CS_HREDRAW : Nat
  CS_VREDRAW : Nat
  WS_OVERLAPPEDWINDOW : Nat
  WS_VISIBLE : Nat
  SWP_NOSIZE : Nat
  SWP_NOMOVE : Nat
  SWP_NOZORDER : Nat
  COLOR_WINDOW : Nat
  sizeof_WNDCLASSEXW : Nat
  /-- Value of `LoadIcon(nullptr, IDI_APPLICATION)`. -/
  LoadIcon_IDI_APPLICATION : Nat
  /-- Value of `LoadCursor(nullptr, IDC_ARROW)`. -/
  LoadCursor_IDC_ARROW : Nat
  /-- Value of `DefWindowProc(window, message, wparam, lparam)`. -/
  DefWindowProc : HWND → UINT → WPARAM → LPARAM → LRESULT
  /-- Virtual dispatch of `WindowProcDelegate` on the wrapper at an address. -/
  WindowProcDelegate : Ptr → HWND → UINT → WPARAM → LPARAM → LRESULT
  /-- Memory read `reinterpret_cast<CREATESTRUCT*>(lparam)->lpCreateParams`. -/
  lpCreateParams : LPARAM → Ptr

/-- The window procedure stored in a window class. -/
inductive WNDPROC where
  | null
  | Win32Window_WndProc
  deriving DecidableEq, Repr

/-- The fields of `WNDCLASSEXW`. -/
structure WNDCLASSEXW where
  cbSize : Nat
  style : Nat
  lpfnWndProc : WNDPROC
  cbClsExtra : Int
  cbWndExtra : Int
  hInstance : HMODULE
  hIcon : Nat
  hCursor : Nat
  hbrBackground : Nat
  lpszMenuName : Option String
  lpszClassName : Option String
  hIconSm : Nat
  deriving DecidableEq, Repr

/-- Value-initialised `WNDCLASSEXW wcex = {}`. -/
def WNDCLASSEXW.zero : WNDCLASSEXW :=
  { cbSize := 0, style := 0, lpfnWndProc := WNDPROC.null, cbClsExtra := 0, cbWndExtra := 0,
    hInstance := 0, hIcon := 0, hCursor := 0, hbrBackground := 0, lpszMenuName := none,
    lpszClassName := none, hIconSm := 0 }

/-- Calls that leave the runner, in the order they are made. -/
inductive Call where
  | SetWindowLongPtr (window : HWND) (index : Int) (value : Nat)
  | SetClassLongPtr (window : HWND) (index : Int) (value : Nat)
  | DefWindowProc (window : HWND) (message : UINT) (wparam : WPARAM) (lparam : LPARAM)
  | MessageHandler (self : Ptr) (window : HWND) (message : UINT) (wparam : WPARAM)
      (lparam : LPARAM)
  | WindowProcDelegate (self : Ptr) (window : HWND) (message : UINT) (wparam : WPARAM)
      (lparam : LPARAM)
  | DestroyWindow (window : HWND)
  | CreateWindow (className title : String) (style : Nat) (x y width height : Int)
      (parent menu : HWND) (hinstance : HMODULE) (param : Ptr)
  | SetParent (child parent : HWND)
  | SetWindowPos (window insertAfter : HWND) (x y cx cy : Int) (flags : Nat)
  | RegisterClassExW (wcex : WNDCLASSEXW)
  | FlutterViewController_new (hinstance : HMODULE) (window : HWND)
  | Engine_Run (engine : Ptr)
  | View_GetNativeWindow (controller : Ptr)
  | Engine_SetNextFrameCallback (engine : Ptr)
  deriving DecidableEq, Repr

/-- The per-window and per-class longs kept by the OS. -/
structure OsState where
  /-- Value of `GetWindowLongPtr(window, index)`. -/
  windowLong : HWND → Int → Nat
  /-- The window class a window belongs to. -/
  classOf : HWND → Nat
  /-- Value of `GetClassLongPtr` for a window of the class, at an index. -/
  classLong : Nat → Int → Nat

/-- What a call produces: its return value, the state after it and the calls
it made. -/
structure Outcome (σ : Type) (α : Type) where
  value : α
  state : σ
  calls : List Call

/-! ### Per-window user data and message dispatch (win32_window.cpp 107-149) -/

/-- `SetWindowLongPtr(window, index, value)`. -/
def SetWindowLongPtr (s : OsState) (window : HWND) (index : Int) (value : Nat) : OsState :=
  { s with windowLong := fun w i => if w = window ∧ i = index then value else s.windowLong w i }

/-- `Win32Window::SetWindowUserData`. -/
def SetWindowUserData (api : WinApi) (s : OsState) (window : HWND) (this_window : Ptr) :
    Outcome OsState Unit :=
  { value := (),
    state := SetWindowLongPtr s window api.GWLP_USERDATA this_window,
    calls := [Call.SetWindowLongPtr window api.GWLP_USERDATA this_window] }

/-- `Win32Window::GetWindowUserData`. -/
def GetWindowUserData (api : WinApi) (s : OsState) (window : HWND) : Ptr :=
  s.windowLong window api.GWLP_USERDATA

/-- `Win32Window::WindowProcDelegate` of the base class (win32_window.h 66-71). -/
def Win32Window_WindowProcDelegate (api : WinApi) (window : HWND) (message : UINT)
    (wparam : WPARAM) (lparam : LPARAM) : LRESULT :=
  api.DefWindowProc window message wparam lparam

/-- `Win32Window::MessageHandler`, called on the wrapper at address `self`. -/
def MessageHandler (api : WinApi) (_self : Ptr) (s : OsState) (window : HWND) (message : UINT)
    (wparam : WPARAM) (lparam : LPARAM) : Outcome OsState LRESULT :=
  if message = api.WM_NCCREATE then
    let cs := api.lpCreateParams lparam
    let r := SetWindowUserData api s window cs
    { value := 1, state := r.state, calls := r.calls }
  else
    let this_window := GetWindowUserData api s window
    if this_window ≠ nullptr then
      { value := api.WindowProcDelegate this_window window message wparam lparam,
        state := s,
        calls := [Call.WindowProcDelegate this_window window message wparam lparam] }
    else
      { value := api.DefWindowProc window message wparam lparam,
        state := s,
        calls := [Call.DefWindowProc window message wparam lparam] }

/-- `Win32Window::WndProc`, the static callback. -/
def WndProc (api : WinApi) (s : OsState) (window : HWND) (message : UINT)
    (wparam : WPARAM) (lparam : LPARAM) : Outcome OsState LRESULT :=
  let r0 : Outcome OsState Unit :=
    if message = api.WM_NCCREATE then
      SetWindowUserData api s window (api.lpCreateParams lparam)
    else
      { value := (), state := s, calls := [] }
  let this_window := GetWindowUserData api r0.state window
  if this_window ≠ nullptr then
    let r := MessageHandler api this_window r0.state window message wparam lparam
    { value := r.value,
      state := r.state,
      calls := r0.calls ++ [Call.MessageHandler this_window window message wparam lparam]
        ++ r.calls }
  else
    { value := api.DefWindowProc window message wparam lparam,
      state := r0.state,
      calls := r0.calls ++ [Call.DefWindowProc window message wparam lparam] }

/-- A call that enters a method of a wrapper object. -/
def Call.isWrapperMethod : Call → Bool
  | Call.MessageHandler _ _ _ _ _ => true
  | Call.WindowProcDelegate _ _ _ _ _ => true
  | _ => false

/-- A call of `WindowProcDelegate`. -/
def Call.isDelegate : Call → Bool
  | Call.WindowProcDelegate _ _ _ _ _ => true
  | _ => false

/-! ### The window wrapper (win32_window.cpp 12-105) -/

/-- `Win32Window::Point`. -/
structure Point where
  x : Nat
  y : Nat
  deriving DecidableEq, Repr

/-- `Win32Window::Size`. -/
structure Size where
  width : Nat
  height : Nat
  deriving DecidableEq, Repr

/-- The Windows `RECT`. -/
structure RECT where
  left : Int
  top : Int
  right : Int
  bottom : Int
  deriving DecidableEq, Repr

/-- The data members of `Win32Window`. -/
structure Win32Window where
  window_class_name_ : String
  window_handle_ : HWND
  instance_ : HMODULE
  deriving DecidableEq, Repr

/-- A freshly constructed wrapper: the default member initialisers of the header. -/
def Win32Window.init : Win32Window :=
  { window_class_name_ := "", window_handle_ := nullptr, instance_ := nullptr }

/-- A wrapper object together with the OS state it acts on. -/
structure WinState where
  obj : Win32Window
  os : OsState

/-- What the OS and the engine answer to the calls of one operation. -/
structure Env where
  /-- Value of `GetModuleHandle(nullptr)`. -/
  GetModuleHandle : HMODULE
  /-- Handle returned by `CreateWindow`; `nullptr` when creation fails. -/
  CreateWindow : HWND
  /-- Atom returned by `RegisterClassExW`. -/
  RegisterClassExW : ATOM
  /-- Value of `::GetClientWindowLength()`. -/
  GetClientWindowLength : Int
  /-- Scale factor of the default monitor (its DPI divided by 96). -/
  monitorScale : Nat
  /-- Address of the object made by `std::make_unique<FlutterViewController>`. -/
  new_controller : Ptr
  /-- Value of `engine()` on that controller; `nullptr` when there is none. -/
  controller_engine : Ptr
  /-- Value of `Run()` on that engine. -/
  engine_Run : Bool
  /-- Value of `view()->GetNativeWindow()` on that controller. -/
  view_GetNativeWindow : HWND

/-- `SetClassLongPtr(window, index, value)`. -/
def SetClassLongPtr (s : OsState) (window : HWND) (index : Int) (value : Nat) : OsState :=
  { s with classLong := fun c i =>
      if c = s.classOf window ∧ i = index then value else s.classLong c i }

/-- `GetClassLongPtr(window, index)`. -/
def GetClassLongPtr (s : OsState) (window : HWND) (index : Int) : Nat :=
  s.classLong (s.classOf window) index

/-- `EnableSecurity` of the anonymous namespace. -/
def EnableSecurity (api : WinApi) (s : OsState) (window : HWND) : Outcome OsState Unit :=
  let value := GetClassLongPtr s window api.GCL_STYLE ||| api.CS_NOCLOSE
  { value := (),
    state := SetClassLongPtr s window api.GCL_STYLE value,
    calls := [Call.SetClassLongPtr window api.GCL_STYLE value] }

/-- `Win32Window::Destroy`. -/
def Destroy (s : WinState) : Outcome WinState Unit :=
  if s.obj.window_handle_ ≠ nullptr then
    { value := (),
      state := { s with obj := { s.obj with window_handle_ := nullptr } },
      calls := [Call.DestroyWindow s.obj.window_handle_] }
  else
    { value := (), state := s, calls := [] }

/-- `Win32Window::~Win32Window`. -/
def Win32Window_destructor (s : WinState) : Outcome WinState Unit := Destroy s

/-- `Win32Window::GetHandle`. -/
def GetHandle (s : WinState) : HWND := s.obj.window_handle_

/-- The `CreateWindow` call of `Win32Window::CreateAndShow(title, content_rect)`
(lines 55-61), made by the wrapper at address `self`. -/
def CreateWindow_call (api : WinApi) (env : Env) (self : Ptr) (obj : Win32Window)
    (title : String) (content_rect : RECT) : Call :=
  Call.CreateWindow obj.window_class_name_ title
    (api.WS_OVERLAPPEDWINDOW ||| api.WS_VISIBLE)
    content_rect.left content_rect.top
    (wrapLONG (content_rect.right - content_rect.left))
    (wrapLONG (content_rect.bottom - content_rect.top))
    nullptr nullptr env.GetModuleHandle self

/-- `Win32Window::CreateAndShow(title, content_rect)`. -/
def CreateAndShow_rect (api : WinApi) (env : Env) (self : Ptr) (s : WinState) (title : String)
    (content_rect : RECT) : Outcome WinState Bool :=
  let create := CreateWindow_call api env self s.obj title content_rect
  let s1 : WinState := { s with obj := { s.obj with window_handle_ := env.CreateWindow } }
  if s1.obj.window_handle_ = nullptr then
    { value := false, state := s1, calls := [create] }
  else
    let sec := EnableSecurity api s1.os s1.obj.window_handle_
    { value := true, state := { s1 with os := sec.state }, calls := [create] ++ sec.calls }

/-- The local `window_rect` of `Win32Window::CreateAndShow(title, origin, size)`
(lines 46-48): `unsigned int` sums stored into the `LONG` members of a `RECT`. -/
def window_rect (origin : Point) (size : Size) : RECT :=
  { left := toLONG (u32 origin.x),
    top := toLONG (u32 origin.y),
    right := toLONG (u32 (u32 origin.x + u32 size.width)),
    bottom := toLONG (u32 (u32 origin.y + u32 size.height)) }

/-- `Win32Window::CreateAndShow(title, origin, size)`. -/
def CreateAndShow (api : WinApi) (env : Env) (self : Ptr) (s : WinState) (title : String)
    (origin : Point) (size : Size) : Outcome WinState Bool :=
  let d := Destroy s
  let r := CreateAndShow_rect api env self d.state title (window_rect origin size)
  { value := r.value, state := r.state, calls := d.calls ++ r.calls }

/-- `Win32Window::SetChildContent`. -/
def SetChildContent (api : WinApi) (env : Env) (s : WinState) (content : HWND) :
    Outcome WinState Unit :=
  { value := (),
    state := s,
    calls := [Call.SetParent content s.obj.window_handle_,
      Call.SetWindowPos content nullptr 0 0 env.GetClientWindowLength env.GetClientWindowLength
        (api.SWP_NOSIZE ||| api.SWP_NOMOVE ||| api.SWP_NOZORDER)] }

/-- `Win32Window::RegisterWindowClass`. -/
def RegisterWindowClass (api : WinApi) (env : Env) (s : WinState) : Outcome WinState ATOM :=
  let wcex : WNDCLASSEXW :=
    { WNDCLASSEXW.zero with
      cbSize := api.sizeof_WNDCLASSEXW,
      style := api.CS_HREDRAW ||| api.CS_VREDRAW,
      lpfnWndProc := WNDPROC.Win32Window_WndProc,
      hInstance := env.GetModuleHandle,
      hIcon := api.LoadIcon_IDI_APPLICATION,
      hCursor := api.LoadCursor_IDC_ARROW,
      hbrBackground := api.COLOR_WINDOW + 1,
      lpszClassName := some s.obj.window_class_name_ }
  { value := env.RegisterClassExW, state := s, calls := [Call.RegisterClassExW wcex] }

/-! ### The engine-aware subclass (flutter_window.cpp) -/

/-- The data members of `FlutterWindow`: the `Win32Window` base and the owned
view controller (`nullptr` while there is none). -/
structure FlutterWindow where
  base : Win32Window
  flutter_controller_ : Ptr
  deriving DecidableEq, Repr

/-- A `FlutterWindow` object together with the OS state it acts on. -/
structure FlutterState where
  obj : FlutterWindow
  os : OsState

/-- The `Win32Window` part of a `FlutterWindow` state. -/
def FlutterState.toWin (s : FlutterState) : WinState := { obj := s.obj.base, os := s.os }

/-- Write the `Win32Window` part back into a `FlutterWindow` state. -/
def FlutterState.withWin (s : FlutterState) (w : WinState) : FlutterState :=
  { obj := { s.obj with base := w.obj }, os := w.os }

/-- `FlutterWindow::CreateAndShow`. -/
def FlutterWindow_CreateAndShow (api : WinApi) (env : Env) (self : Ptr) (s : FlutterState)
    (title : String) (origin : Point) (size : Size) : Outcome FlutterState Bool :=
  let b := CreateAndShow api env self s.toWin title origin size
  let s1 := s.withWin b.state
  if b.value = false then
    { value := false, state := s1, calls := b.calls }
  else
    let s2 : FlutterState := { s1 with obj := { s1.obj with flutter_controller_ := env.new_controller } }
    let c1 := b.calls ++ [Call.FlutterViewController_new s1.obj.base.instance_ (GetHandle s1.toWin)]
    if env.controller_engine = nullptr then
      { value := false, state := s2, calls := c1 }
    else
      let c2 := c1 ++ [Call.Engine_Run env.controller_engine]
      if env.engine_Run = false then
        { value := false, state := s2, calls := c2 }
      else
        let ch := SetChildContent api env s2.toWin env.view_GetNativeWindow
        { value := true,
          state := s2.withWin ch.state,
          calls := c2 ++ [Call.View_GetNativeWindow s2.obj.flutter_controller_] ++ ch.calls
            ++ [Call.Engine_SetNextFrameCallback env.controller_engine] }

/-! ## The Linux side (linux/my_application.cc) -/

/-- The fields of `FlutterDesktopEngineProperties` that the shell sets; a null
`const char*` is `none`. -/
structure FlutterDesktopEngineProperties where
  assets_path : Option String
  icu_data_path : Option String
  dart_entrypoint : Option String
  deriving DecidableEq, Repr

/-- Value-initialised `FlutterDesktopEngineProperties engine_properties = {}`. -/
def FlutterDesktopEngineProperties.zero : FlutterDesktopEngineProperties :=
  { assets_path := none, icu_data_path := none, dart_entrypoint := none }

/-- Calls that leave the Linux shell, in the order they are made. -/
inductive GtkCall where
  | gtk_application_window_new (application : Ptr)
  | gtk_window_set_title (window : Ptr) (title : String)
  | gtk_window_set_default_size (window : Ptr) (width height : Int)
  | gtk_window_set_resizable (window : Ptr) (resizable : Bool)
  | gtk_widget_set_size_request (widget : Ptr) (width height : Int)
  | gtk_widget_get_window (widget : Ptr)
  | gdk_atom_intern (name : String) (only_if_exists : Bool)
  | gdk_property_change (window : Ptr) (property type : Nat) (format : Int) (mode : Nat)
      (data : Nat) (nelements : Int)
  | gtk_box_new (orientation : Nat) (spacing : Int)
  | gtk_widget_show (widget : Ptr)
  | gtk_container_add (container widget : Ptr)
  | flutter_desktop_plugin_registrar_new (window : Ptr)
  | flutter_desktop_plugins_register (registrar : Ptr)
  | gtk_drawing_area_new
  | gtk_box_pack_start (box child : Ptr) (expand fill : Bool) (padding : Nat)
  | flutter_desktop_engine_create (properties : FlutterDesktopEngineProperties)
  | flutter_desktop_engine_set_window_offset_callback (engine : Ptr) (user_data : Ptr)
  | flutter_desktop_engine_run_engine (engine : Ptr) (argument : Ptr)
  | g_application_activate (application : Ptr)
  deriving DecidableEq, Repr

/-- Constants of the GTK headers, the build configuration, what GTK and the
engine answer during one activation, and the memory that holds the argument
vector. -/
structure GtkEnv where
  /-- The `gchar*` stored in each cell of memory, a null one being `none`.
  Addresses count cells of one pointer, so that `p + 1` on a `char**` is the
  next address. -/
  memory : Ptr → Option String
  /-- Whether the build defines `GDK_WINDOWING_X11`. -/
  GDK_WINDOWING_X11 : Bool
  GTK_ORIENTATION_VERTICAL : Nat
  GDK_ATOM_TYPE : Nat
  GDK_PROP_MODE_REPLACE : Nat
  /-- Window made by `gtk_application_window_new`. -/
  gtk_application_window_new : Ptr
  /-- Value of `gtk_widget_get_window` on that window. -/
  gtk_widget_get_window : Ptr
  /-- Atom of `_NET_WM_WINDOW_TYPE`. -/
  type_atom : Nat
  /-- Atom of `_NET_WM_WINDOW_TYPE_NORMAL`. -/
  normal_atom : Nat
  /-- Widget made by `gtk_box_new`. -/
  gtk_box_new : Ptr
  /-- Registrar made by `flutter_desktop_plugin_registrar_new`. -/
  flutter_desktop_plugin_registrar_new : Ptr
  /-- Widget made by `gtk_drawing_area_new`. -/
  gtk_drawing_area_new : Ptr
  /-- Engine made by `flutter_desktop_engine_create`; `nullptr` when it makes none. -/
  flutter_desktop_engine_create : Ptr

/-- The part of the `GtkApplication parent_instance` that GLib consults in
`g_application_activate`: whether the application has been registered. -/
structure GApplication where
  is_registered : Bool
  deriving DecidableEq, Repr

/-- The members of `_MyApplication` (lines 10-13): the parent instance and the
`char**` member, the address of a cell of the argument vector or `nullptr`. -/
structure MyApplication where
  parent_instance : GApplication
  dart_entrypoint_arguments : Ptr
  deriving DecidableEq, Repr

/-- The object as `my_application_new` makes it with `g_object_new`: not
registered, its own member zero-filled. -/
def MyApplication.init : MyApplication :=
  { parent_instance := { is_registered := false }, dart_entrypoint_arguments := nullptr }

/-- Outcome of `my_application_activate`. -/
structure ActivateOutcome where
  state : MyApplication
  calls : List GtkCall

/-- The X11 block of `my_application_activate` (lines 32-42). -/
def x11_block (env : GtkEnv) (window : Ptr) : List GtkCall :=
  if env.GDK_WINDOWING_X11 then
    let gdk_window := env.gtk_widget_get_window
    [GtkCall.gtk_widget_get_window window] ++
      (if gdk_window ≠ nullptr then
        [GtkCall.gdk_atom_intern "_NET_WM_WINDOW_TYPE" false,
         GtkCall.gdk_atom_intern "_NET_WM_WINDOW_TYPE_NORMAL" false,
         GtkCall.gdk_property_change gdk_window env.type_atom env.GDK_ATOM_TYPE 32
           env.GDK_PROP_MODE_REPLACE env.normal_atom 1]
      else [])
  else []

/-- The entrypoint computed at line 62 of `my_application_activate`:
`dart_entrypoint_arguments[0]` when the member is not null. -/
def activate_entrypoint (env : GtkEnv) (self : MyApplication) : Option String :=
  if self.dart_entrypoint_arguments ≠ nullptr then env.memory self.dart_entrypoint_arguments
  else none

/-- `my_application_activate`. -/
def my_application_activate (env : GtkEnv) (application : Ptr) (self : MyApplication) :
    ActivateOutcome :=
  let window := env.gtk_application_window_new
  let box := env.gtk_box_new
  let registrar := env.flutter_desktop_plugin_registrar_new
  let flutter_widget := env.gtk_drawing_area_new
  let entrypoint := activate_entrypoint env self
  let engine_properties : FlutterDesktopEngineProperties :=
    { FlutterDesktopEngineProperties.zero with
      assets_path := some "/usr/share/vaultsafe/data",
      icu_data_path := some "/usr/share/vaultsafe/data/icudtl.dat",
      dart_entrypoint := entrypoint }
  let engine := env.flutter_desktop_engine_create
  { state := self,
    calls :=
      [GtkCall.gtk_application_window_new application,
       GtkCall.gtk_window_set_title window "VaultSafe",
       GtkCall.gtk_window_set_default_size window 1280 720,
       GtkCall.gtk_window_set_resizable window true,
       GtkCall.gtk_widget_set_size_request window 800 600]
      ++ x11_block env window ++
      [GtkCall.gtk_box_new env.GTK_ORIENTATION_VERTICAL 0,
       GtkCall.gtk_widget_show box,
       GtkCall.gtk_container_add window box,
       GtkCall.flutter_desktop_plugin_registrar_new window,
       GtkCall.flutter_desktop_plugins_register registrar,
       GtkCall.gtk_drawing_area_new,
       GtkCall.gtk_box_pack_start box flutter_widget true true 0,
       GtkCall.gtk_widget_show flutter_widget,
       GtkCall.flutter_desktop_engine_create engine_properties,
       GtkCall.flutter_desktop_engine_set_window_offset_callback engine nullptr,
       GtkCall.flutter_desktop_engine_run_engine engine nullptr,
       GtkCall.gtk_widget_show window] }

/-- Outcome of `my_application_local_command_line`: the returned `gboolean`,
the value written to `*exit_status`, the object afterwards and the calls made. -/
structure CommandLineOutcome where
  value : Bool
  exit_status : Int
  state : MyApplication
  calls : List GtkCall

/-- `g_application_activate` of GLib, which is not part of the repository,
after its documented contract: the application must be registered.  On a
registered application the `activate` handler runs, which
`my_application_class_init` (line 96) sets to `my_application_activate`; on an
unregistered one the call returns without running it. -/
def g_application_activate (env : GtkEnv) (application : Ptr) (self : MyApplication) :
    ActivateOutcome :=
  if self.parent_instance.is_registered then
    let a := my_application_activate env application self
    { state := a.state, calls := GtkCall.g_application_activate application :: a.calls }
  else
    { state := self, calls := [GtkCall.g_application_activate application] }

/-- `my_application_local_command_line`; `argv` is the vector `*arguments`,
the address of its first cell. -/
def my_application_local_command_line (env : GtkEnv) (application : Ptr)
    (self : MyApplication) (argv : Ptr) : CommandLineOutcome :=
  let self1 : MyApplication := { self with dart_entrypoint_arguments := argv + 1 }
  let act := g_application_activate env application self1
  { value := true, exit_status := 0, state := act.state, calls := act.calls }

/-- The memory holds, from address `a` on, the strings of `v` followed by the
terminating NULL. -/
def holdsVector (memory : Ptr → Option String) : Ptr → List String → Prop
  | a, [] => memory a = none
  | a, x :: rest => memory a = some x ∧ holdsVector memory (a + 1) rest

/-- The entrypoints handed to `flutter_desktop_engine_create` in a run. -/
def engine_entrypoints : List GtkCall → List (Option String)
  | [] => []
  | GtkCall.flutter_desktop_engine_create p :: cs => p.dart_entrypoint :: engine_entrypoints cs
  | _ :: cs => engine_entrypoints cs

/-! ## Concrete environments used for evaluation -/

/-- The values of the Windows SDK constants, with a default window procedure
that answers 0 and wrappers whose delegate answers 7. -/
def winsdk : WinApi :=
  { WM_NCCREATE := 0x0081, GWLP_USERDATA := -21, GCL_STYLE := -26, CS_NOCLOSE := 0x0200,
    CS_HREDRAW := 0x0002, CS_VREDRAW := 0x0001, WS_OVERLAPPEDWINDOW := 0x00CF0000,
    WS_VISIBLE := 0x10000000, SWP_NOSIZE := 0x0001, SWP_NOMOVE := 0x0002,
    SWP_NOZORDER := 0x0004, COLOR_WINDOW := 5, sizeof_WNDCLASSEXW := 80,
    LoadIcon_IDI_APPLICATION := 1, LoadCursor_IDC_ARROW := 2,
    DefWindowProc := fun _ _ _ _ => 0,
    WindowProcDelegate := fun _ _ _ _ _ => 7,
    lpCreateParams := fun lparam => lparam }

/-- The extended-style flag `WS_EX_NOREDIRECTIONBITMAP`. -/
def WS_EX_NOREDIRECTIONBITMAP : Nat := 0x00200000

/-- The index `GWL_EXSTYLE` of the extended window styles. -/
def GWL_EXSTYLE : Int := -20

/-- An OS state in which every window and class long is 0 and every window
belongs to class 0. -/
def os0 : OsState :=
  { windowLong := fun _ _ => 0, classOf := fun _ => 0, classLong := fun _ _ => 0 }

/-- An environment in which window creation yields handle 5, the monitor scale
factor is 2, and the engine exists and runs. -/
def env0 : Env :=
  { GetModuleHandle := 1, CreateWindow := 5, RegisterClassExW := 1, GetClientWindowLength := 0,
    monitorScale := 2, new_controller := 9, controller_engine := 11, engine_Run := true,
    view_GetNativeWindow := 13 }

/-- A GTK environment in which engine creation yields no engine. -/
def gtk0 : GtkEnv :=
  { GDK_WINDOWING_X11 := false, GTK_ORIENTATION_VERTICAL := 1, GDK_ATOM_TYPE := 4,
    GDK_PROP_MODE_REPLACE := 0, gtk_application_window_new := 21, gtk_widget_get_window := 0,
    type_atom := 0, normal_atom := 0, gtk_box_new := 22,
    flutter_desktop_plugin_registrar_new := 23, gtk_drawing_area_new := 24,
    flutter_desktop_engine_create := 0, memory := fun _ => none }

/-- A GTK environment in which the engine exists (31) and the memory holds the
argument vector `vaultsafe`, `lib/main.dart`, NULL from address 100 on. -/
def gtk_argv : GtkEnv :=
  { gtk0 with
    flutter_desktop_engine_create := 31,
    memory := fun a =>
      if a = 100 then some "vaultsafe" else if a = 101 then some "lib/main.dart" else none }

/-- A fresh application that has been registered. -/
def registered_app : MyApplication :=
  { MyApplication.init with parent_instance := { is_registered := true } }

/-- A call that registers a window class. -/
def Call.isRegisterClass : Call → Bool
  | Call.RegisterClassExW _ => true
  | _ => false

/-- A call of `DestroyWindow`. -/
def Call.isDestroyWindow : Call → Bool
  | Call.DestroyWindow _ => true
  | _ => false

/-- A call made by `SetChildContent`. -/
def Call.isChildContent : Call → Bool
  | Call.SetParent _ _ => true
  | Call.SetWindowPos _ _ _ _ _ _ _ => true
  | _ => false

/-- A call that makes or drives the view controller and its engine. -/
def Call.isEngineSide : Call → Bool
  | Call.FlutterViewController_new _ _ => true
  | Call.Engine_Run _ => true
  | Call.View_GetNativeWindow _ => true
  | Call.Engine_SetNextFrameCallback _ => true
  | _ => false

/-- The class names under which the calls of a run create a window. -/
def createdClassNames : List Call → List String
  | [] => []
  | Call.CreateWindow c _ _ _ _ _ _ _ _ _ _ :: cs => c :: createdClassNames cs
  | _ :: cs => createdClassNames cs

/-- The width and height that the calls of a run request from `CreateWindow`. -/
def requestedSizes : List Call → List (Int × Int)
  | [] => []
  | Call.CreateWindow _ _ _ _ _ w h _ _ _ _ :: cs => (w, h) :: requestedSizes cs
  | _ :: cs => requestedSizes cs

/-- Whether the extended styles of a window carry `WS_EX_NOREDIRECTIONBITMAP`. -/
def hasNoRedirectionBitmap (s : OsState) (window : HWND) : Bool :=
  s.windowLong window GWL_EXSTYLE &&& WS_EX_NOREDIRECTIONBITMAP != 0

/-- A wrapper that holds no window, in the all-zero OS state. -/
def win0 : WinState := { obj := Win32Window.init, os := os0 }

/-- A `FlutterWindow` that holds no window and no controller, in the all-zero
OS state. -/
def flutter0 : FlutterState :=
  { obj := { base := Win32Window.init, flutter_controller_ := nullptr }, os := os0 }

/-- The environment `env0` with an engine whose `Run` fails. -/
def env_run_fails : Env := { env0 with engine_Run := false }

/-- The environment `env0` with a controller that has no engine. -/
def env_no_engine : Env := { env0 with controller_engine := nullptr }

/-- The environment `env0` with a failing `CreateWindow`. -/
def env_no_window : Env := { env0 with CreateWindow := nullptr }

/-- An OS state in which the user-data slot of window 3 holds the wrapper at
address 42. -/
def os1 : OsState := SetWindowLongPtr os0 3 (-21) 42

/-! ## Message dispatch -/

/-- `GetWindowUserData` returns what `SetWindowUserData` stored for the window. -/
theorem GetWindowUserData_SetWindowUserData (api : WinApi) (s : OsState) (window : HWND)
    (q : Ptr) : GetWindowUserData api (SetWindowUserData api s window q).state window = q := by
  simp [GetWindowUserData, SetWindowUserData, SetWindowLongPtr]

/-- `SetWindowUserData` leaves the slot of every other window alone. -/
theorem GetWindowUserData_SetWindowUserData_other (api : WinApi) (s : OsState)
    (window w : HWND) (q : Ptr) (h : w ≠ window) :
    GetWindowUserData api (SetWindowUserData api s window q).state w
      = GetWindowUserData api s w := by
  simp [GetWindowUserData, SetWindowUserData, SetWindowLongPtr, h]

/-- C3: for every message other than `WM_NCCREATE`, when the user-data slot of
the window holds a wrapper `p` (non-null), `WndProc` and `MessageHandler` of
that wrapper return exactly the value of `WindowProcDelegate` of `p` on the
same arguments, `WndProc` enters `MessageHandler` of `p` and then calls the delegate
once and makes no other call; when the slot is null, `WndProc` returns the
value of `DefWindowProc`, that is its only call, and no wrapper method is
entered.  The user data is left as it was. -/
theorem WndProc_dispatch (api : WinApi) (s : OsState) (window : HWND) (message : UINT)
    (wparam : WPARAM) (lparam : LPARAM) (p : Ptr)
    (hm : message ≠ api.WM_NCCREATE) (hslot : GetWindowUserData api s window = p) :
    (p ≠ nullptr →
      (WndProc api s window message wparam lparam).value
          = api.WindowProcDelegate p window message wparam lparam ∧
      (MessageHandler api p s window message wparam lparam).value
          = api.WindowProcDelegate p window message wparam lparam ∧
      (WndProc api s window message wparam lparam).calls
          = [Call.MessageHandler p window message wparam lparam,
             Call.WindowProcDelegate p window message wparam lparam] ∧
      (MessageHandler api p s window message wparam lparam).calls
          = [Call.WindowProcDelegate p window message wparam lparam] ∧
      ((WndProc api s window message wparam lparam).calls.filter Call.isDelegate).length = 1 ∧
      ((MessageHandler api p s window message wparam lparam).calls.filter
          Call.isDelegate).length = 1) ∧
    (p = nullptr →
      (WndProc api s window message wparam lparam).value
          = api.DefWindowProc window message wparam lparam ∧
      (WndProc api s window message wparam lparam).calls
          = [Call.DefWindowProc window message wparam lparam] ∧
      (WndProc api s window message wparam lparam).calls.filter Call.isWrapperMethod = []) ∧
    GetWindowUserData api (WndProc api s window message wparam lparam).state window = p := by
  subst hslot
  refine ⟨fun hp => ?_, fun hp => ?_, ?_⟩
  · simp [WndProc, MessageHandler, hm, hp, Call.isDelegate]
  · simp [WndProc, hm, hp, Call.isWrapperMethod]
  · by_cases hp : GetWindowUserData api s window = nullptr
    · simp [WndProc, hm, hp]
    · simp [WndProc, MessageHandler, hm, hp]

/-- C3 at concrete inputs: message 16 (`WM_CLOSE`) for window 3, whose slot
holds wrapper 42, and for window 4, whose slot is null. -/
theorem WndProc_dispatch_witness :
    ((16 : UINT) ≠ winsdk.WM_NCCREATE ∧ GetWindowUserData winsdk os1 3 = 42 ∧
      (42 : Ptr) ≠ nullptr ∧
      (WndProc winsdk os1 3 16 0 0).value = 7 ∧
      (WndProc winsdk os1 3 16 0 0).calls
        = [Call.MessageHandler 42 3 16 0 0, Call.WindowProcDelegate 42 3 16 0 0]) ∧
    ((16 : UINT) ≠ winsdk.WM_NCCREATE ∧ GetWindowUserData winsdk os1 4 = 0 ∧
      (WndProc winsdk os1 4 16 0 0).value = 0 ∧
      (WndProc winsdk os1 4 16 0 0).calls = [Call.DefWindowProc 4 16 0 0]) :=
  ⟨⟨by decide, by decide, by decide,
      ((WndProc_dispatch winsdk os1 3 16 0 0 42 (by decide) (by decide)).1 (by decide)).1,
      ((WndProc_dispatch winsdk os1 3 16 0 0 42 (by decide) (by decide)).1 (by decide)).2.2.1⟩,
   ⟨by decide, by decide,
      ((WndProc_dispatch winsdk os1 4 16 0 0 0 (by decide) (by decide)).2.1 rfl).1,
      ((WndProc_dispatch winsdk os1 4 16 0 0 0 (by decide) (by decide)).2.1 rfl).2.1⟩⟩

/-- When the creation parameters carry a null pointer, `WndProc` answers
`WM_NCCREATE` with the value of `DefWindowProc`. -/
theorem WndProc_creation_null (api : WinApi) (s : OsState) (window : HWND) (wparam : WPARAM)
    (lparam : LPARAM) (hcs : api.lpCreateParams lparam = nullptr) :
    (WndProc api s window api.WM_NCCREATE wparam lparam).value
        = api.DefWindowProc window api.WM_NCCREATE wparam lparam ∧
    GetWindowUserData api (WndProc api s window api.WM_NCCREATE wparam lparam).state window
        = nullptr := by
  simp [WndProc, hcs, GetWindowUserData, SetWindowUserData, SetWindowLongPtr]

/-- C4: when `WM_NCCREATE` is delivered to `WndProc` for window `window` with
creation parameters carrying the address `p` of a wrapper (non-null), then
afterwards `GetWindowUserData window = p`, the user-data slot of every other
window is unchanged, the message is answered with 1 and `WindowProcDelegate`
is not called; and `GetWindowUserData` returns what `SetWindowUserData` stored
last for the window. -/
theorem WndProc_creation (api : WinApi) (s : OsState) (window : HWND) (wparam : WPARAM)
    (lparam : LPARAM) (p : Ptr)
    (hcs : api.lpCreateParams lparam = p) (hp : p ≠ nullptr) :
    GetWindowUserData api (WndProc api s window api.WM_NCCREATE wparam lparam).state window
        = p ∧
    (∀ w : HWND, w ≠ window →
      GetWindowUserData api (WndProc api s window api.WM_NCCREATE wparam lparam).state w
        = GetWindowUserData api s w) ∧
    (WndProc api s window api.WM_NCCREATE wparam lparam).value = 1 ∧
    (WndProc api s window api.WM_NCCREATE wparam lparam).calls.filter Call.isDelegate = [] ∧
    (∀ (t : OsState) (q : Ptr),
      GetWindowUserData api (SetWindowUserData api t window q).state window = q) := by
  subst hcs
  have hp0 : ¬ api.lpCreateParams lparam = 0 := hp
  refine ⟨?_, ?_, ?_, ?_, ?_⟩
  · simp [WndProc, MessageHandler, GetWindowUserData, SetWindowUserData, SetWindowLongPtr,
      nullptr, hp0]
  · intro w hw
    simp [WndProc, MessageHandler, GetWindowUserData, SetWindowUserData, SetWindowLongPtr,
      nullptr, hp0, hw]
  · simp [WndProc, MessageHandler, GetWindowUserData, SetWindowUserData, SetWindowLongPtr,
      nullptr, hp0]
  · simp [WndProc, MessageHandler, GetWindowUserData, SetWindowUserData, SetWindowLongPtr,
      nullptr, hp0, Call.isDelegate]
  · intro t q
    exact GetWindowUserData_SetWindowUserData api t window q

/-- C4 at concrete inputs: `WM_NCCREATE` (0x81) for window 3 carrying wrapper
42, in a state where window 4 and window 3 hold other values. -/
theorem WndProc_creation_witness :
    winsdk.lpCreateParams 42 = 42 ∧ (42 : Ptr) ≠ nullptr ∧
    GetWindowUserData winsdk (WndProc winsdk os0 3 0x81 0 42).state 3 = 42 ∧
    GetWindowUserData winsdk (WndProc winsdk os0 3 0x81 0 42).state 4
      = GetWindowUserData winsdk os0 4 ∧
    (WndProc winsdk os0 3 0x81 0 42).value = 1 :=
  ⟨rfl, by decide,
    (WndProc_creation winsdk os0 3 0 42 42 rfl (by decide)).1,
    (WndProc_creation winsdk os0 3 0 42 42 rfl (by decide)).2.1 4 (by decide),
    (WndProc_creation winsdk os0 3 0 42 42 rfl (by decide)).2.2.1⟩

/-! ## Destruction -/

/-- C6: after `Destroy` the stored handle is null (`GetHandle` returns null);
`DestroyWindow` is called exactly once, on the held handle, when a window was
held and not at all otherwise; nothing else of the state changes; and a second
`Destroy` leaves the state as it is and makes no call.  The destructor is
`Destroy`. -/
theorem Destroy_releases (s : WinState) :
    GetHandle (Destroy s).state = nullptr ∧
    (Destroy s).calls
      = (if s.obj.window_handle_ ≠ nullptr then [Call.DestroyWindow s.obj.window_handle_]
         else []) ∧
    (Destroy s).state = { s with obj := { s.obj with window_handle_ := nullptr } } ∧
    (Destroy (Destroy s).state).state = (Destroy s).state ∧
    (Destroy (Destroy s).state).calls = [] ∧
    Win32Window_destructor s = Destroy s := by
  by_cases h : s.obj.window_handle_ = nullptr
  · have hs : ({ s with obj := { s.obj with window_handle_ := nullptr } } : WinState) = s := by
      cases s with
      | mk obj os =>
        cases obj with
        | mk c hnd i =>
          simp only at h
          subst h
          rfl
    simp [Destroy, GetHandle, h, hs, Win32Window_destructor]
  · simp [Destroy, GetHandle, h, Win32Window_destructor]

/-! ## Window creation -/

/-- The base `CreateAndShow` succeeds exactly when `CreateWindow` yields a
handle; it stores that handle and keeps the other members. -/
theorem CreateAndShow_value (api : WinApi) (env : Env) (self : Ptr) (s : WinState)
    (title : String) (origin : Point) (size : Size) :
    ((CreateAndShow api env self s title origin size).value = true ↔
      env.CreateWindow ≠ nullptr) ∧
    (CreateAndShow api env self s title origin size).state.obj
      = { s.obj with window_handle_ := env.CreateWindow } := by
  by_cases hw : env.CreateWindow = nullptr <;> by_cases hs : s.obj.window_handle_ = nullptr <;>
    simp [CreateAndShow, CreateAndShow_rect, Destroy, hw, hs]

/-- The calls of the base `CreateAndShow`: those of `Destroy`, then
`CreateWindow`, then (on success) those of `EnableSecurity` on the new window. -/
theorem CreateAndShow_calls (api : WinApi) (env : Env) (self : Ptr) (s : WinState)
    (title : String) (origin : Point) (size : Size) :
    (CreateAndShow api env self s title origin size).calls
      = (Destroy s).calls ++
        CreateWindow_call api env self s.obj title (window_rect origin size) ::
        (if env.CreateWindow = nullptr then []
         else (EnableSecurity api s.os env.CreateWindow).calls) := by
  by_cases hw : env.CreateWindow = nullptr <;> by_cases hs : s.obj.window_handle_ = nullptr <;>
    simp [CreateAndShow, CreateAndShow_rect, Destroy, EnableSecurity, hw, hs, CreateWindow_call]

/-! ## The engine-aware window -/

/-- C1: `FlutterWindow::CreateAndShow` returns true exactly when the base
`Win32Window::CreateAndShow` returns true, the new view controller has a
non-null engine and `Run` of that engine returns true.  It stops at the first
failing step: when the base call fails nothing is called after it and the
controller member is untouched; when the engine is null the controller
construction is the last call (`Run` is not called); when `Run` fails it is the
last call; only when `Run` succeeded do the calls of `SetChildContent` and
`SetNextFrameCallback` follow.  The base call itself makes no controller,
engine or child-content call. -/
theorem FlutterWindow_CreateAndShow_steps (api : WinApi) (env : Env) (self : Ptr)
    (s : FlutterState) (title : String) (origin : Point) (size : Size) :
    ((FlutterWindow_CreateAndShow api env self s title origin size).value = true ↔
      ((CreateAndShow api env self s.toWin title origin size).value = true ∧
        env.controller_engine ≠ nullptr ∧ env.engine_Run = true)) ∧
    ((CreateAndShow api env self s.toWin title origin size).value = false →
      (FlutterWindow_CreateAndShow api env self s title origin size).value = false ∧
      (FlutterWindow_CreateAndShow api env self s title origin size).calls
        = (CreateAndShow api env self s.toWin title origin size).calls ∧
      (FlutterWindow_CreateAndShow api env self s title origin size).state.obj.flutter_controller_
        = s.obj.flutter_controller_) ∧
    ((CreateAndShow api env self s.toWin title origin size).value = true →
      env.controller_engine = nullptr →
      (FlutterWindow_CreateAndShow api env self s title origin size).value = false ∧
      (FlutterWindow_CreateAndShow api env self s title origin size).calls
        = (CreateAndShow api env self s.toWin title origin size).calls ++
          [Call.FlutterViewController_new s.obj.base.instance_ env.CreateWindow]) ∧
    ((CreateAndShow api env self s.toWin title origin size).value = true →
      env.controller_engine ≠ nullptr → env.engine_Run = false →
      (FlutterWindow_CreateAndShow api env self s title origin size).value = false ∧
      (FlutterWindow_CreateAndShow api env self s title origin size).calls
        = (CreateAndShow api env self s.toWin title origin size).calls ++
          [Call.FlutterViewController_new s.obj.base.instance_ env.CreateWindow,
           Call.Engine_Run env.controller_engine]) ∧
    ((CreateAndShow api env self s.toWin title origin size).value = true →
      env.controller_engine ≠ nullptr → env.engine_Run = true →
      (FlutterWindow_CreateAndShow api env self s title origin size).value = true ∧
      (FlutterWindow_CreateAndShow api env self s title origin size).calls
        = (CreateAndShow api env self s.toWin title origin size).calls ++
          [Call.FlutterViewController_new s.obj.base.instance_ env.CreateWindow,
           Call.Engine_Run env.controller_engine,
           Call.View_GetNativeWindow env.new_controller,
           Call.SetParent env.view_GetNativeWindow env.CreateWindow,
           Call.SetWindowPos env.view_GetNativeWindow nullptr 0 0 env.GetClientWindowLength
             env.GetClientWindowLength (api.SWP_NOSIZE ||| api.SWP_NOMOVE ||| api.SWP_NOZORDER),
           Call.Engine_SetNextFrameCallback env.controller_engine]) ∧
    (CreateAndShow api env self s.toWin title origin size).calls.filter
        (fun c => c.isEngineSide || c.isChildContent) = [] := by
  have hobj := (CreateAndShow_value api env self s.toWin title origin size).2
  simp only [FlutterState.toWin] at hobj ⊢
  refine ⟨?_, ?_, ?_, ?_, ?_, ?_⟩
  · by_cases hb : (CreateAndShow api env self ⟨s.obj.base, s.os⟩ title origin size).value = true <;>
      by_cases he : env.controller_engine = nullptr <;>
      by_cases hr : env.engine_Run = true <;>
      simp [FlutterWindow_CreateAndShow, FlutterState.toWin, hb, he, hr]
  · intro hb
    simp [FlutterWindow_CreateAndShow, FlutterState.toWin, hb, FlutterState.withWin]
  · intro hb he
    simp [FlutterWindow_CreateAndShow, hb, he, FlutterState.withWin, FlutterState.toWin,
      GetHandle, hobj]
  · intro hb he hr
    simp [FlutterWindow_CreateAndShow, hb, he, hr, FlutterState.withWin, FlutterState.toWin,
      GetHandle, hobj]
  · intro hb he hr
    simp [FlutterWindow_CreateAndShow, hb, he, hr, FlutterState.withWin, FlutterState.toWin,
      GetHandle, SetChildContent, hobj]
  · rw [CreateAndShow_calls]
    by_cases hw : env.CreateWindow = nullptr <;>
      by_cases hs : s.obj.base.window_handle_ = nullptr <;>
      simp [Destroy, EnableSecurity, CreateWindow_call, hw, hs, Call.isEngineSide,
        Call.isChildContent]

/-- C1 at concrete inputs, on a fresh window: with a failing `CreateWindow`
the only call is `CreateWindow`; with a null engine the last call is the
controller construction; with a failing `Run` the last call is `Run`. -/
theorem FlutterWindow_CreateAndShow_steps_witness :
    ((CreateAndShow winsdk env_no_window 1 flutter0.toWin "VaultSafe" ⟨10, 10⟩
        ⟨1280, 720⟩).value = false ∧
      (FlutterWindow_CreateAndShow winsdk env_no_window 1 flutter0 "VaultSafe" ⟨10, 10⟩
        ⟨1280, 720⟩).calls
        = [Call.CreateWindow "" "VaultSafe" 0x10CF0000 10 10 1280 720 0 0 1 1]) ∧
    ((CreateAndShow winsdk env_no_engine 1 flutter0.toWin "VaultSafe" ⟨10, 10⟩
        ⟨1280, 720⟩).value = true ∧
      env_no_engine.controller_engine = nullptr ∧
      (FlutterWindow_CreateAndShow winsdk env_no_engine 1 flutter0 "VaultSafe" ⟨10, 10⟩
        ⟨1280, 720⟩).calls
        = [Call.CreateWindow "" "VaultSafe" 0x10CF0000 10 10 1280 720 0 0 1 1,
           Call.SetClassLongPtr 5 (-26) 0x200,
           Call.FlutterViewController_new 0 5]) ∧
    ((CreateAndShow winsdk env_run_fails 1 flutter0.toWin "VaultSafe" ⟨10, 10⟩
        ⟨1280, 720⟩).value = true ∧
      env_run_fails.controller_engine ≠ nullptr ∧ env_run_fails.engine_Run = false ∧
      (FlutterWindow_CreateAndShow winsdk env_run_fails 1 flutter0 "VaultSafe" ⟨10, 10⟩
        ⟨1280, 720⟩).calls
        = [Call.CreateWindow "" "VaultSafe" 0x10CF0000 10 10 1280 720 0 0 1 1,
           Call.SetClassLongPtr 5 (-26) 0x200,
           Call.FlutterViewController_new 0 5,
           Call.Engine_Run 11]) :=
  ⟨⟨by decide,
      ((FlutterWindow_CreateAndShow_steps winsdk env_no_window 1 flutter0 "VaultSafe"
        ⟨10, 10⟩ ⟨1280, 720⟩).2.1 (by decide)).2.1.trans (by decide)⟩,
   ⟨by decide, rfl,
      ((FlutterWindow_CreateAndShow_steps winsdk env_no_engine 1 flutter0 "VaultSafe"
        ⟨10, 10⟩ ⟨1280, 720⟩).2.2.1 (by decide) rfl).2.trans (by decide)⟩,
   ⟨by decide, by decide, rfl,
      ((FlutterWindow_CreateAndShow_steps winsdk env_run_fails 1 flutter0 "VaultSafe"
        ⟨10, 10⟩ ⟨1280, 720⟩).2.2.2.1 (by decide) (by decide) rfl).2.trans (by decide)⟩⟩

/-- C10: when the base window creation succeeds but the engine is null or its
`Run` returns false, `FlutterWindow::CreateAndShow` returns false while the
wrapper keeps the handle of the new window (non-null); after the `Destroy` at
the start of the call there is no `DestroyWindow` and no child-content call.
The handle is cleared by a later `Destroy` or destructor run (each calling
`DestroyWindow` on it), a later `CreateAndShow` starts by destroying it, and
`SetChildContent` and `RegisterWindowClass` leave it in place. -/
theorem FlutterWindow_CreateAndShow_not_atomic (api : WinApi) (env : Env) (self : Ptr)
    (s : FlutterState) (title : String) (origin : Point) (size : Size)
    (hbase : (CreateAndShow api env self s.toWin title origin size).value = true)
    (hfail : env.controller_engine = nullptr ∨ env.engine_Run = false) :
    (FlutterWindow_CreateAndShow api env self s title origin size).value = false ∧
    GetHandle (FlutterWindow_CreateAndShow api env self s title origin size).state.toWin
      = env.CreateWindow ∧
    GetHandle (FlutterWindow_CreateAndShow api env self s title origin size).state.toWin
      ≠ nullptr ∧
    (FlutterWindow_CreateAndShow api env self s title origin size).calls
      = (Destroy s.toWin).calls ++
        [CreateWindow_call api env self s.obj.base title (window_rect origin size)] ++
        (EnableSecurity api s.os env.CreateWindow).calls ++
        [Call.FlutterViewController_new s.obj.base.instance_ env.CreateWindow] ++
        (if env.controller_engine = nullptr then []
         else [Call.Engine_Run env.controller_engine]) ∧
    (((FlutterWindow_CreateAndShow api env self s title origin size).calls.drop
        (Destroy s.toWin).calls.length).filter
        (fun c => c.isDestroyWindow || c.isChildContent)) = [] ∧
    GetHandle (Destroy
        (FlutterWindow_CreateAndShow api env self s title origin size).state.toWin).state
      = nullptr ∧
    (Destroy (FlutterWindow_CreateAndShow api env self s title origin size).state.toWin).calls
      = [Call.DestroyWindow env.CreateWindow] ∧
    (Win32Window_destructor
        (FlutterWindow_CreateAndShow api env self s title origin size).state.toWin).calls
      = [Call.DestroyWindow env.CreateWindow] ∧
    (∀ (env2 : Env) (self2 : Ptr) (title2 : String) (origin2 : Point) (size2 : Size),
      (CreateAndShow api env2 self2
          (FlutterWindow_CreateAndShow api env self s title origin size).state.toWin
          title2 origin2 size2).calls.head?
        = some (Call.DestroyWindow env.CreateWindow)) ∧
    (∀ (env2 : Env) (content : HWND),
      GetHandle (SetChildContent api env2
          (FlutterWindow_CreateAndShow api env self s title origin size).state.toWin
          content).state = env.CreateWindow) ∧
    (∀ env2 : Env,
      GetHandle (RegisterWindowClass api env2
          (FlutterWindow_CreateAndShow api env self s title origin size).state.toWin).state
        = env.CreateWindow) := by
  have hv := CreateAndShow_value api env self s.toWin title origin size
  have hw : env.CreateWindow ≠ nullptr := hv.1.1 hbase
  have hobj := hv.2
  have hcalls := CreateAndShow_calls api env self s.toWin title origin size
  simp only [FlutterState.toWin] at hobj hbase hcalls ⊢
  have hstate : (FlutterWindow_CreateAndShow api env self s title origin size).state.obj.base
      = { s.obj.base with window_handle_ := env.CreateWindow } := by
    rcases hfail with he | hr
    · simp [FlutterWindow_CreateAndShow, FlutterState.toWin, FlutterState.withWin, hbase, he,
        hobj]
    · by_cases he : env.controller_engine = nullptr
      · simp [FlutterWindow_CreateAndShow, FlutterState.toWin, FlutterState.withWin, hbase, he,
          hobj]
      · simp [FlutterWindow_CreateAndShow, FlutterState.toWin, FlutterState.withWin, hbase, he,
          hr, hobj]
  have hcallsF : (FlutterWindow_CreateAndShow api env self s title origin size).calls
      = (Destroy ⟨s.obj.base, s.os⟩).calls ++
        [CreateWindow_call api env self s.obj.base title (window_rect origin size)] ++
        (EnableSecurity api s.os env.CreateWindow).calls ++
        [Call.FlutterViewController_new s.obj.base.instance_ env.CreateWindow] ++
        (if env.controller_engine = nullptr then []
         else [Call.Engine_Run env.controller_engine]) := by
    rcases hfail with he | hr
    · simp [FlutterWindow_CreateAndShow, FlutterState.toWin, FlutterState.withWin, hbase, he,
        hobj, hcalls, hw, GetHandle]
    · by_cases he : env.controller_engine = nullptr
      · simp [FlutterWindow_CreateAndShow, FlutterState.toWin, FlutterState.withWin, hbase, he,
          hobj, hcalls, hw, GetHandle]
      · simp [FlutterWindow_CreateAndShow, FlutterState.toWin, FlutterState.withWin, hbase, he,
          hr, hobj, hcalls, hw, GetHandle]
  refine ⟨?_, ?_, ?_, hcallsF, ?_, ?_, ?_, ?_, ?_, ?_, ?_⟩
  · rcases hfail with he | hr
    · simp [FlutterWindow_CreateAndShow, FlutterState.toWin, hbase, he]
    · by_cases he : env.controller_engine = nullptr
      · simp [FlutterWindow_CreateAndShow, FlutterState.toWin, hbase, he]
      · simp [FlutterWindow_CreateAndShow, FlutterState.toWin, hbase, he, hr]
  · simp [GetHandle, hstate]
  · simpa [GetHandle, hstate] using hw
  · rw [hcallsF]
    by_cases he : env.controller_engine = nullptr <;>
      simp [EnableSecurity, CreateWindow_call, Call.isDestroyWindow, Call.isChildContent, he]
  · simp [GetHandle, Destroy, hstate, hw]
  · simp [Destroy, hstate, hw]
  · simp [Win32Window_destructor, Destroy, hstate, hw]
  · intro env2 self2 title2 origin2 size2
    rw [CreateAndShow_calls]
    simp [Destroy, hstate, hw]
  · intro env2 content
    simp [GetHandle, SetChildContent, hstate]
  · intro env2
    simp [GetHandle, RegisterWindowClass, hstate]

/-- C10 at concrete inputs: a fresh window, creation yields handle 5, and the
controller has no engine. -/
theorem FlutterWindow_CreateAndShow_not_atomic_witness :
    (CreateAndShow winsdk env_no_engine 1 flutter0.toWin "VaultSafe" ⟨10, 10⟩
        ⟨1280, 720⟩).value = true ∧
    (env_no_engine.controller_engine = nullptr ∨ env_no_engine.engine_Run = false) ∧
    (FlutterWindow_CreateAndShow winsdk env_no_engine 1 flutter0 "VaultSafe" ⟨10, 10⟩
        ⟨1280, 720⟩).value = false ∧
    GetHandle (FlutterWindow_CreateAndShow winsdk env_no_engine 1 flutter0 "VaultSafe" ⟨10, 10⟩
        ⟨1280, 720⟩).state.toWin = 5 :=
  ⟨by decide, Or.inl rfl,
    (FlutterWindow_CreateAndShow_not_atomic winsdk env_no_engine 1 flutter0 "VaultSafe"
      ⟨10, 10⟩ ⟨1280, 720⟩ (by decide) (Or.inl rfl)).1,
    (FlutterWindow_CreateAndShow_not_atomic winsdk env_no_engine 1 flutter0 "VaultSafe"
      ⟨10, 10⟩ ⟨1280, 720⟩ (by decide) (Or.inl rfl)).2.1⟩

/-! ## Size, registration and security flag of the created window -/

/-- The window longs, among them the extended styles, are not touched by
`EnableSecurity`; the style of the window class gains `CS_NOCLOSE`. -/
theorem EnableSecurity_effect (api : WinApi) (s : OsState) (window : HWND) :
    (EnableSecurity api s window).state.windowLong = s.windowLong ∧
    GetClassLongPtr (EnableSecurity api s window).state window api.GCL_STYLE
      = GetClassLongPtr s window api.GCL_STYLE ||| api.CS_NOCLOSE ∧
    (EnableSecurity api s window).calls
      = [Call.SetClassLongPtr window api.GCL_STYLE
          (GetClassLongPtr s window api.GCL_STYLE ||| api.CS_NOCLOSE)] := by
  simp [EnableSecurity, SetClassLongPtr, GetClassLongPtr]

/-- Without overflow, the size requested from `CreateWindow` is the size
passed in, whatever the environment. -/
theorem CreateAndShow_requested_size (api : WinApi) (env : Env) (self : Ptr) (s : WinState)
    (title : String) (origin : Point) (size : Size)
    (hx : origin.x + size.width < 2 ^ 31) (hy : origin.y + size.height < 2 ^ 31) :
    requestedSizes (CreateAndShow api env self s title origin size).calls
      = [((size.width : Int), (size.height : Int))] := by
  have e1 : ∀ n : Nat, n < 2 ^ 31 → toLONG n = (n : Int) := by
    intro n hn
    have h1 : n % 2 ^ 32 = n := Nat.mod_eq_of_lt (by omega)
    simp only [toLONG, h1]
    rw [if_pos hn]
  have e2 : ∀ n : Nat, n < 2 ^ 31 → wrapLONG (n : Int) = (n : Int) := by
    intro n hn
    have h1 : ((n : Int) % 2 ^ 32).toNat = n := by omega
    simp only [wrapLONG, h1]
    exact e1 n hn
  have ux : u32 origin.x = origin.x := Nat.mod_eq_of_lt (by omega)
  have uy : u32 origin.y = origin.y := Nat.mod_eq_of_lt (by omega)
  have uw : u32 size.width = size.width := Nat.mod_eq_of_lt (by omega)
  have uh : u32 size.height = size.height := Nat.mod_eq_of_lt (by omega)
  have usx : u32 (origin.x + size.width) = origin.x + size.width :=
    Nat.mod_eq_of_lt (by omega)
  have usy : u32 (origin.y + size.height) = origin.y + size.height :=
    Nat.mod_eq_of_lt (by omega)
  have hw : wrapLONG (toLONG (u32 (u32 origin.x + u32 size.width)) - toLONG (u32 origin.x))
      = (size.width : Int) := by
    rw [ux, uw, usx, e1 _ hx, e1 origin.x (by omega)]
    have : ((origin.x + size.width : Nat) : Int) - (origin.x : Int) = (size.width : Int) := by
      omega
    rw [this]
    exact e2 _ (by omega)
  have hh : wrapLONG (toLONG (u32 (u32 origin.y + u32 size.height)) - toLONG (u32 origin.y))
      = (size.height : Int) := by
    rw [uy, uh, usy, e1 _ hy, e1 origin.y (by omega)]
    have : ((origin.y + size.height : Nat) : Int) - (origin.y : Int) = (size.height : Int) := by
      omega
    rw [this]
    exact e2 _ (by omega)
  rw [CreateAndShow_calls]
  by_cases hc : env.CreateWindow = nullptr <;>
    by_cases hs : s.obj.window_handle_ = nullptr <;>
    simp [Destroy, EnableSecurity, CreateWindow_call, requestedSizes, window_rect, hc, hs, hw, hh]

/-- C5 (the code at the failing input): whatever the environment, and so
whatever the scale factor of the monitor, `CreateAndShow` with origin (10, 10)
and size 100x100 requests a 100x100 window from `CreateWindow`; with scale
factor 2 the request is not the 200x200 of the claim. -/
theorem CreateAndShow_requests_unscaled_size (env : Env) :
    requestedSizes (CreateAndShow winsdk env 1 win0 "VaultSafe" ⟨10, 10⟩ ⟨100, 100⟩).calls
      = [(100, 100)] ∧
    requestedSizes (CreateAndShow winsdk { env with monitorScale := 2 } 1 win0 "VaultSafe"
        ⟨10, 10⟩ ⟨100, 100⟩).calls ≠ [(2 * 100, 2 * 100)] := by
  have h : ∀ e : Env,
      requestedSizes (CreateAndShow winsdk e 1 win0 "VaultSafe" ⟨10, 10⟩ ⟨100, 100⟩).calls
        = [(100, 100)] := by
    intro e
    rw [CreateAndShow_calls]
    by_cases hw : e.CreateWindow = nullptr
    · simp [Destroy, win0, Win32Window.init, hw, CreateWindow_call, requestedSizes,
        window_rect, toLONG, wrapLONG, u32]
    · simp [Destroy, win0, Win32Window.init, hw, CreateWindow_call, requestedSizes,
        window_rect, toLONG, wrapLONG, u32, EnableSecurity]
  refine ⟨h env, ?_⟩
  rw [h]
  decide

/-- C8 (the code at the failing input): on window 5 with all styles 0,
`EnableSecurity` makes one call, `SetClassLongPtr` of the class style to
`CS_NOCLOSE` (0x200); afterwards `WS_EX_NOREDIRECTIONBITMAP` is not among the
extended styles of the window, nor is its bit in the class style; and a window
that `CreateAndShow` created successfully does not carry the flag either. -/
theorem EnableSecurity_does_not_set_flag :
    (EnableSecurity winsdk os0 5).calls = [Call.SetClassLongPtr 5 (-26) 0x200] ∧
    hasNoRedirectionBitmap (EnableSecurity winsdk os0 5).state 5 = false ∧
    GetClassLongPtr (EnableSecurity winsdk os0 5).state 5 winsdk.GCL_STYLE
      &&& WS_EX_NOREDIRECTIONBITMAP = 0 ∧
    (CreateAndShow winsdk env0 1 win0 "VaultSafe" ⟨10, 10⟩ ⟨1280, 720⟩).value = true ∧
    GetHandle (CreateAndShow winsdk env0 1 win0 "VaultSafe" ⟨10, 10⟩ ⟨1280, 720⟩).state = 5 ∧
    hasNoRedirectionBitmap
      (CreateAndShow winsdk env0 1 win0 "VaultSafe" ⟨10, 10⟩ ⟨1280, 720⟩).state.os 5 = false := by
  refine ⟨by decide, by decide, by decide, by decide, by decide, by decide⟩

/-- C7 (the code at the failing input): whatever the OS answers,
`CreateAndShow` on a fresh wrapper registers no window class: its first call is
`CreateWindow` under the class name `window_class_name_` (empty here), and no
`RegisterClassExW` occurs in the run; when `CreateWindow` then fails that is
the whole run.  The registration that is missing is the one
`RegisterWindowClass` makes: the static callback `WndProc` under that same
class name. -/
theorem CreateAndShow_without_registration (env : Env) :
    (CreateAndShow winsdk env 1 win0 "VaultSafe" ⟨10, 10⟩ ⟨1280, 720⟩).calls.head?
      = some (Call.CreateWindow win0.obj.window_class_name_ "VaultSafe" 0x10CF0000
          10 10 1280 720 0 0 env.GetModuleHandle 1) ∧
    (CreateAndShow winsdk env 1 win0 "VaultSafe" ⟨10, 10⟩ ⟨1280, 720⟩).calls.filter
      Call.isRegisterClass = [] ∧
    (CreateAndShow winsdk env_no_window 1 win0 "VaultSafe" ⟨10, 10⟩ ⟨1280, 720⟩).calls
      = [Call.CreateWindow "" "VaultSafe" 0x10CF0000 10 10 1280 720 0 0 1 1] ∧
    (CreateAndShow winsdk env_no_window 1 win0 "VaultSafe" ⟨10, 10⟩ ⟨1280, 720⟩).value
      = false ∧
    (RegisterWindowClass winsdk env win0).calls
      = [Call.RegisterClassExW
          { WNDCLASSEXW.zero with
            cbSize := 80, style := 3, lpfnWndProc := WNDPROC.Win32Window_WndProc,
            hInstance := env.GetModuleHandle, hIcon := 1, hCursor := 2, hbrBackground := 6,
            lpszClassName := some win0.obj.window_class_name_ }] := by
  refine ⟨?_, ?_, by decide, by decide, ?_⟩
  · rw [CreateAndShow_calls]
    simp [Destroy, win0, Win32Window.init, CreateWindow_call, window_rect, toLONG, wrapLONG,
      u32, winsdk, nullptr]
  · rw [CreateAndShow_calls]
    by_cases hw : env.CreateWindow = nullptr <;>
      simp [Destroy, win0, Win32Window.init, EnableSecurity, CreateWindow_call, hw,
        Call.isRegisterClass]
  · simp [RegisterWindowClass, winsdk, WNDCLASSEXW.zero]

/-- In every state and environment `CreateAndShow` makes no registration call
and creates its one window under the class name `window_class_name_`, while
`RegisterWindowClass` makes one call, `RegisterClassExW`, of a class whose
procedure is the static callback `WndProc` and whose name is
`window_class_name_`, and returns what that call returns. -/
theorem CreateAndShow_registration (api : WinApi) (env : Env) (self : Ptr) (s : WinState)
    (title : String) (origin : Point) (size : Size) :
    (CreateAndShow api env self s title origin size).calls.filter Call.isRegisterClass = [] ∧
    createdClassNames (CreateAndShow api env self s title origin size).calls
      = [s.obj.window_class_name_] ∧
    (∃ wcex : WNDCLASSEXW,
      (RegisterWindowClass api env s).calls = [Call.RegisterClassExW wcex] ∧
      wcex.lpfnWndProc = WNDPROC.Win32Window_WndProc ∧
      wcex.lpszClassName = some s.obj.window_class_name_) ∧
    (RegisterWindowClass api env s).value = env.RegisterClassExW ∧
    (RegisterWindowClass api env s).state.obj = s.obj := by
  refine ⟨?_, ?_, ?_, rfl, rfl⟩
  · rw [CreateAndShow_calls]
    by_cases hw : env.CreateWindow = nullptr <;>
      by_cases hs : s.obj.window_handle_ = nullptr <;>
      simp [Destroy, EnableSecurity, CreateWindow_call, hw, hs, Call.isRegisterClass]
  · rw [CreateAndShow_calls]
    by_cases hw : env.CreateWindow = nullptr <;>
      by_cases hs : s.obj.window_handle_ = nullptr <;>
      simp [Destroy, EnableSecurity, CreateWindow_call, hw, hs, createdClassNames]
  · exact ⟨_, rfl, rfl, rfl⟩

/-! ## The Linux shell -/

/-- The X11 block hands nothing to the engine. -/
theorem engine_entrypoints_x11_block (env : GtkEnv) (window : Ptr) :
    engine_entrypoints (x11_block env window) = [] := by
  by_cases hx : env.GDK_WINDOWING_X11 = true <;>
    by_cases hg : env.gtk_widget_get_window = nullptr <;>
    simp [x11_block, hx, hg, engine_entrypoints]

/-- The entrypoints of a run are those of its parts, in order. -/
theorem engine_entrypoints_append (l1 l2 : List GtkCall) :
    engine_entrypoints (l1 ++ l2) = engine_entrypoints l1 ++ engine_entrypoints l2 := by
  induction l1 with
  | nil => rfl
  | cons c cs ih => cases c <;> simp [engine_entrypoints, ih]

/-- Activation makes no success check: after creating the engine it sets the
offset callback on the result, runs it and shows the window, whatever engine
creation returned. -/
theorem my_application_activate_tail (env : GtkEnv) (application : Ptr) (self : MyApplication) :
    ∃ before : List GtkCall, ∃ properties : FlutterDesktopEngineProperties,
      (my_application_activate env application self).calls
        = before ++
          [GtkCall.flutter_desktop_engine_create properties,
           GtkCall.flutter_desktop_engine_set_window_offset_callback
             env.flutter_desktop_engine_create nullptr,
           GtkCall.flutter_desktop_engine_run_engine env.flutter_desktop_engine_create nullptr,
           GtkCall.gtk_widget_show env.gtk_application_window_new] ∧
      properties.dart_entrypoint = activate_entrypoint env self := by
  refine ⟨[GtkCall.gtk_application_window_new application,
       GtkCall.gtk_window_set_title env.gtk_application_window_new "VaultSafe",
       GtkCall.gtk_window_set_default_size env.gtk_application_window_new 1280 720,
       GtkCall.gtk_window_set_resizable env.gtk_application_window_new true,
       GtkCall.gtk_widget_set_size_request env.gtk_application_window_new 800 600]
      ++ x11_block env env.gtk_application_window_new ++
      [GtkCall.gtk_box_new env.GTK_ORIENTATION_VERTICAL 0,
       GtkCall.gtk_widget_show env.gtk_box_new,
       GtkCall.gtk_container_add env.gtk_application_window_new env.gtk_box_new,
       GtkCall.flutter_desktop_plugin_registrar_new env.gtk_application_window_new,
       GtkCall.flutter_desktop_plugins_register env.flutter_desktop_plugin_registrar_new,
       GtkCall.gtk_drawing_area_new,
       GtkCall.gtk_box_pack_start env.gtk_box_new env.gtk_drawing_area_new true true 0,
       GtkCall.gtk_widget_show env.gtk_drawing_area_new],
    { assets_path := some "/usr/share/vaultsafe/data",
      icu_data_path := some "/usr/share/vaultsafe/data/icudtl.dat",
      dart_entrypoint := activate_entrypoint env self }, ?_, rfl⟩
  simp [my_application_activate]

/-- C2 (the code at the failing input): when `flutter_desktop_engine_create`
yields null, activation does not return early: it goes on to set the offset
callback on the null engine, to call `flutter_desktop_engine_run_engine` on it
and to show the window. -/
theorem my_application_activate_null_engine :
    gtk0.flutter_desktop_engine_create = nullptr ∧
    (my_application_activate gtk0 1 MyApplication.init).calls
      = [GtkCall.gtk_application_window_new 1,
         GtkCall.gtk_window_set_title 21 "VaultSafe",
         GtkCall.gtk_window_set_default_size 21 1280 720,
         GtkCall.gtk_window_set_resizable 21 true,
         GtkCall.gtk_widget_set_size_request 21 800 600,
         GtkCall.gtk_box_new 1 0,
         GtkCall.gtk_widget_show 22,
         GtkCall.gtk_container_add 21 22,
         GtkCall.flutter_desktop_plugin_registrar_new 21,
         GtkCall.flutter_desktop_plugins_register 23,
         GtkCall.gtk_drawing_area_new,
         GtkCall.gtk_box_pack_start 22 24 true true 0,
         GtkCall.gtk_widget_show 24,
         GtkCall.flutter_desktop_engine_create
           { assets_path := some "/usr/share/vaultsafe/data",
             icu_data_path := some "/usr/share/vaultsafe/data/icudtl.dat",
             dart_entrypoint := none },
         GtkCall.flutter_desktop_engine_set_window_offset_callback nullptr nullptr,
         GtkCall.flutter_desktop_engine_run_engine nullptr nullptr,
         GtkCall.gtk_widget_show 21] := by
  refine ⟨rfl, ?_⟩
  decide

/-- On a registered application and an argument vector `a0, a1, ..., an` in
memory, `my_application_local_command_line` stores the address of the cell of
`a1`, writes exit status 0, returns TRUE, and the activation that
`g_application_activate` runs hands exactly one entrypoint to the engine: `a1`
when there is one and null when the vector is `a0` alone. -/
theorem local_command_line_registered (env : GtkEnv) (application : Ptr)
    (self : MyApplication) (argv : Ptr) (a0 : String) (rest : List String)
    (hreg : self.parent_instance.is_registered = true)
    (hv : holdsVector env.memory argv (a0 :: rest)) :
    (my_application_local_command_line env application self argv).value = true ∧
    (my_application_local_command_line env application self argv).exit_status = 0 ∧
    (my_application_local_command_line env application self argv).state.dart_entrypoint_arguments
      = argv + 1 ∧
    (my_application_local_command_line env application self argv).calls
      = GtkCall.g_application_activate application ::
        (my_application_activate env application
          { self with dart_entrypoint_arguments := argv + 1 }).calls ∧
    engine_entrypoints (my_application_local_command_line env application self argv).calls
      = [rest.head?] := by
  have hm : env.memory (argv + 1) = rest.head? := by
    cases rest with
    | nil => exact hv.2
    | cons a1 tl => exact hv.2.1
  refine ⟨rfl, rfl, ?_, ?_, ?_⟩
  · simp [my_application_local_command_line, g_application_activate, hreg,
      my_application_activate]
  · simp [my_application_local_command_line, g_application_activate, hreg]
  · simp [my_application_local_command_line, g_application_activate, hreg,
      my_application_activate, engine_entrypoints, engine_entrypoints_append,
      engine_entrypoints_x11_block, activate_entrypoint, nullptr, hm]

/-- The registered case at concrete inputs: the vector `vaultsafe`,
`lib/main.dart` at address 100. -/
theorem local_command_line_registered_witness :
    registered_app.parent_instance.is_registered = true ∧
    holdsVector gtk_argv.memory 100 ["vaultsafe", "lib/main.dart"] ∧
    engine_entrypoints (my_application_local_command_line gtk_argv 1 registered_app 100).calls
      = [some "lib/main.dart"] :=
  ⟨rfl, ⟨rfl, rfl, rfl⟩,
    (local_command_line_registered gtk_argv 1 registered_app 100 "vaultsafe" ["lib/main.dart"]
      rfl ⟨rfl, rfl, rfl⟩).2.2.2.2⟩

/-- C9 (the code at the failing input): on the application as
`my_application_new` makes it, which nothing in the shell registers, and the
argument vector `vaultsafe`, `lib/main.dart` at address 100,
`my_application_local_command_line` stores the address of the second cell,
writes exit status 0 and returns TRUE, but its one call,
`g_application_activate` on the unregistered application, runs no activation:
no engine is created and no entrypoint is handed to it. -/
theorem local_command_line_does_not_activate :
    holdsVector gtk_argv.memory 100 ["vaultsafe", "lib/main.dart"] ∧
    MyApplication.init.parent_instance.is_registered = false ∧
    (my_application_local_command_line gtk_argv 1 MyApplication.init 100).value = true ∧
    (my_application_local_command_line gtk_argv 1 MyApplication.init 100).exit_status = 0 ∧
    (my_application_local_command_line gtk_argv 1
        MyApplication.init 100).state.dart_entrypoint_arguments = 101 ∧
    gtk_argv.memory 101 = some "lib/main.dart" ∧
    (my_application_local_command_line gtk_argv 1 MyApplication.init 100).calls
      = [GtkCall.g_application_activate 1] ∧
    engine_entrypoints (my_application_local_command_line gtk_argv 1 MyApplication.init 100).calls
      = [] := by
  refine ⟨⟨rfl, rfl, rfl⟩, rfl, rfl, rfl, rfl, rfl, ?_, ?_⟩ <;> decide

end VaultSafe
